import Mathlib

/-!
# DevFork Arena — competition orchestration and scoring, shallow embedding

This file embeds the orchestration core of the DevFork Arena backend
(`backend/agents/agent_manager.py`, `backend/services/competition_service.py`,
`backend/models.py`) in Lean and proves or refutes the specified claims.

Modelling conventions:
* Python `float` values are modelled as `ℚ` (exact rational arithmetic);
  Python `int` as `ℤ`/`ℕ`; `uuid.UUID` values as `ℕ`.
* Fallible Python operations are modelled with `Except String`; the string is
  the exception text.  The Python `/` operator raises `ZeroDivisionError`, so it is
  modelled by `pyDiv`.
* Python truthiness coercions (`x or default`) are modelled explicitly:
  `None` and the falsy values `""` and `0.0` select the default.
* The external collaborators of the Single-Agent Runner (the agent
  `solve_challenge` method, the `CodeExecutor`, the database) are modelled as oracle
  inputs describing the outcome of each call, exactly as consumed by
  `AgentManager.execute_agent`.
-/

deriving instance DecidableEq for Except

namespace DevForkArena

/-- Model of `models.SubmissionStatus` (`models.py`, lines 127–134). -/
inductive SubmissionStatus where
  | pending
  | running
  | passed
  | failed
  | timeout
  | error
deriving DecidableEq, Repr

/-- Model of `models.CompetitionStatus` (`models.py`, lines 137–142).  Note: the enum
has exactly these four members; there is no `FAILED` member. -/
inductive CompetitionStatus where
  | pending
  | running
  | completed
  | cancelled
deriving DecidableEq, Repr

/-- Attribute lookup on the `CompetitionStatus` enum class: `getattr` by
member name.  Accessing any other name (for example `CompetitionStatus.FAILED`
in `competition_service.py`) raises `AttributeError` at runtime, modelled by
`none`. -/
def competitionStatusAttr : String → Option CompetitionStatus
  | "PENDING" => some .pending
  | "RUNNING" => some .running
  | "COMPLETED" => some .completed
  | "CANCELLED" => some .cancelled
  | _ => none

/-- Model of `models.TestCase`. -/
structure TestCase where
  input : String
  expected_output : String
  is_hidden : Bool := false
deriving DecidableEq, Repr

/-- Model of `models.ChallengeResponse` (fields consumed by the orchestration core).
`difficulty` is a string, as consumed by `_calculate_score` via
`difficulty.lower()`. -/
structure ChallengeResponse where
  id : String
  title : String := ""
  description : String := ""
  difficulty : String
  test_cases : List TestCase := []
deriving DecidableEq, Repr

/-- Model of `models.TestResult` (numeric and message fields consumed by the core;
the `failed_tests` detail list is not read by the orchestration code). -/
structure TestResult where
  passed : Bool
  total_tests : ℕ
  passed_tests : ℕ
  error_message : Option String := none
  execution_time : Option ℚ := none
deriving DecidableEq, Repr

/-- Model of `models.SubmissionResponse` with its field defaults. -/
structure SubmissionResponse where
  competition_id : ℕ
  agent_id : ℕ
  challenge_id : String
  code : String
  status : SubmissionStatus
  score : ℤ := 0
  tests_passed : ℕ := 0
  total_tests : ℕ := 0
  execution_time : Option ℚ := none
  error_message : Option String := none
  attempts : ℕ := 0
deriving DecidableEq, Repr

/-- Model of `models.AgentRecord` (fields consumed by `load_agent_from_db`). -/
structure AgentRecord where
  id : ℕ
  name : String
  model_provider : String
  model_name : String
  temperature : ℚ := 7/10
  max_tokens : ℕ := 4096
  max_iterations : ℕ := 3
  system_prompt : Option String := none
  is_active : Bool := true
deriving DecidableEq, Repr

/-- Model of `models.CompetitionResponse` (fields consumed by the core). -/
structure CompetitionResponse where
  id : ℕ
  challenge_id : String
  agent_ids : List ℕ
  status : CompetitionStatus
  timeout_seconds : ℕ := 300
deriving DecidableEq, Repr

/-! ## Python primitive semantics -/

/-- Python `int(x)` on a float/rational: truncation toward zero. -/
def pyTrunc (q : ℚ) : ℤ :=
  if 0 ≤ q then ⌊q⌋ else ⌈q⌉

/-- Python `/` on floats, which raises `ZeroDivisionError` on a zero
denominator (modelled exactly; otherwise exact rational division). -/
def pyDiv (a b : ℚ) : Except String ℚ :=
  if b = 0 then .error "ZeroDivisionError" else .ok (a / b)

/-- Python `str.lower()` (ASCII case folding, as used on the difficulty
strings). -/
def pyLower (s : String) : String :=
  String.mk (s.data.map Char.toLower)

/-- Python `s or default` for an optional string: `None` and the falsy empty
string select the default. -/
def pyOrStr (s : Option String) (default : String) : String :=
  match s with
  | none => default
  | some v => if v = "" then default else v

/-- Python `x or float(lit)` for an optional float sort key, as used in
`_create_leaderboard`: `None` and the falsy value `0.0` both select
`float(lit)` = `+∞`. -/
def pyOrInf : Option ℚ → WithTop ℚ
  | none => ⊤
  | some t => if t = 0 then ⊤ else (t : WithTop ℚ)

/-! ## Scorer — `AgentManager._calculate_score` (agent_manager.py 379–428) -/

/-- The difficulty-multiplier dictionary lookup with default `1.0`
(`agent_manager.py`, lines 412–416): `{"easy": 1.0, "medium": 1.5,
"hard": 2.0}.get(difficulty.lower(), 1.0)`. -/
def difficultyMultiplier (difficulty : String) : ℚ :=
  if pyLower difficulty = "easy" then 1
  else if pyLower difficulty = "medium" then 3/2
  else if pyLower difficulty = "hard" then 2
  else 1

/-- Model of `AgentManager._calculate_score`.  Faithful to the source: the
partial-credit branch divides by `total_tests` with no zero guard, and the
final score is `max(0, int(...))`. -/
def calculateScore (test_result : TestResult) (execution_time : ℚ)
    (attempts : ℕ) (difficulty : String) : Except String ℤ := do
  if test_result.passed = false then
    let frac ← pyDiv (test_result.passed_tests : ℚ) (test_result.total_tests : ℚ)
    return pyTrunc (frac * 30)
  else
    let base_score : ℚ := 100
    let difficulty_multiplier := difficultyMultiplier difficulty
    let q ← pyDiv execution_time 60
    let time_bonus : ℚ := max 0 (50 - q * 50)
    let attempt_penalty : ℚ := ((attempts : ℚ) - 1) * 10
    let score := pyTrunc ((base_score + time_bonus - attempt_penalty) * difficulty_multiplier)
    return max 0 score

/-! ## Leaderboard builder — `AgentManager._create_leaderboard`
(agent_manager.py 430–464) -/

/-- One leaderboard entry dictionary (agent_manager.py, lines 443–452). -/
structure LeaderboardEntry where
  rank : ℕ
  agent_id : ℕ
  score : ℤ
  status : SubmissionStatus
  tests_passed : ℕ
  total_tests : ℕ
  execution_time : Option ℚ
  attempts : ℕ
deriving DecidableEq, Repr

/-- The entry built from one submission, before ranking (rank placeholder 0). -/
def submissionEntry (s : SubmissionResponse) : LeaderboardEntry :=
  { rank := 0
    agent_id := s.agent_id
    score := s.score
    status := s.status
    tests_passed := s.tests_passed
    total_tests := s.total_tests
    execution_time := s.execution_time
    attempts := s.attempts }

/-- The comparison used by `leaderboard.sort(key=lambda x: (-x["score"],
x["execution_time"] or float(inf)))`: ascending lexicographic order on the
key tuple.  Note the Python `or`, which sends a `0.0` execution time (falsy)
to `+∞` exactly like a missing one. -/
def leaderboardLE (a b : LeaderboardEntry) : Bool :=
  decide (-a.score < -b.score) ||
    (decide (-a.score = -b.score) && decide (pyOrInf a.execution_time ≤ pyOrInf b.execution_time))

/-- Model of `AgentManager._create_leaderboard`: build entries in submission order,
stable-sort them by the key above, then assign ranks `1..N` by enumeration. -/
def createLeaderboard (submissions : List SubmissionResponse) : List LeaderboardEntry :=
  let leaderboard := submissions.map submissionEntry
  let sorted := leaderboard.mergeSort leaderboardLE
  sorted.enum.map fun p => { p.2 with rank := p.1 + 1 }

/-! ## Single-Agent Runner — `AgentManager.execute_agent`
(agent_manager.py 135–243) -/

/-- Outcome of `await asyncio.wait_for(agent.solve_challenge(challenge),
timeout=timeout_seconds)` together with the wall-clock time elapsed when the
wait returned: the solve call returns code, times out, or raises. -/
inductive SolveOutcome where
  | ok (solution_code : String) (elapsed : ℚ)
  | timeout (elapsed : ℚ)
  | exn (msg : String)
deriving DecidableEq, Repr

/-- The behaviour of the external collaborators of the runner during one
`execute_agent` call: the agent-load step (`load_agent_from_db`), the solve
call, the resulting `len(agent.solution_attempts)`, and the evaluator call
(`code_executor.run_test_cases`, which either returns a `TestResult` or
raises). -/
structure RunnerOracle where
  load : Except String Unit
  solve : SolveOutcome
  attempts : ℕ
  evalResult : Except String TestResult
deriving DecidableEq, Repr

/-- Model of `AgentManager.execute_agent`.  The submission record starts as `pending`
with `total_tests = len(challenge.test_cases)`, is moved to `running`, and is
then mutated along the control flow of the source; every exception inside the
`try` is caught by the outer handler, which stamps the fields already
assigned so far with `status = error`, `score = 0` and
`error_message = "Execution error: " ++ str(e)`.  The function is total: it
always returns a `SubmissionResponse`. -/
def executeAgent (agent_id : ℕ) (challenge_id : String) (competition_id : ℕ)
    (challenge : ChallengeResponse) (timeout_seconds : ℕ) (o : RunnerOracle) :
    SubmissionResponse :=
  let submission : SubmissionResponse :=
    { competition_id := competition_id
      agent_id := agent_id
      challenge_id := challenge_id
      code := ""
      status := .pending
      total_tests := challenge.test_cases.length }
  let submission := { submission with status := .running }
  match o.load with
  | .error e =>
      { submission with
        status := .error,
        error_message := some ("Execution error: " ++ e),
        score := 0 }
  | .ok _ =>
    match o.solve with
    | .timeout elapsed =>
        { submission with
          status := .timeout,
          error_message :=
            some ("Execution timed out after " ++ toString timeout_seconds ++ " seconds"),
          execution_time := some elapsed,
          score := 0 }
    | .exn e =>
        { submission with
          status := .error,
          error_message := some ("Execution error: " ++ e),
          score := 0 }
    | .ok solution_code elapsed =>
      match o.evalResult with
      | .error e =>
          { submission with
            status := .error,
            error_message := some ("Execution error: " ++ e),
            score := 0 }
      | .ok test_result =>
        let submission :=
          { submission with
            code := solution_code,
            execution_time := some elapsed,
            tests_passed := test_result.passed_tests,
            total_tests := test_result.total_tests,
            attempts := o.attempts }
        if test_result.passed then
          match calculateScore test_result elapsed o.attempts challenge.difficulty with
          | .ok v => { submission with status := .passed, score := v }
          | .error e =>
              { submission with
                status := .error,
                error_message := some ("Execution error: " ++ e),
                score := 0 }
        else
          { submission with
            status := .failed,
            error_message := some (pyOrStr test_result.error_message "Tests failed"),
            score := 0 }

/-- The first exception encountered by `execute_agent` during agent
resolution, code generation, or evaluation, if any (a timeout is a separate
modelled state, not an exception reaching the outer handler). -/
def firstRunnerException (o : RunnerOracle) : Option String :=
  match o.load with
  | .error e => some e
  | .ok _ =>
    match o.solve with
    | .exn e => some e
    | .timeout _ => none
    | .ok _ _ =>
      match o.evalResult with
      | .error e => some e
      | .ok _ => none

/-! ## Competition Orchestrator — `AgentManager.run_competition`
(agent_manager.py 245–377) -/

/-- Model of `models.CompetitionResults` (fields computed by the orchestrator). -/
structure CompetitionResults where
  competition_id : ℕ
  submissions : List SubmissionResponse
  winner : Option ℕ
  leaderboard : List LeaderboardEntry
deriving DecidableEq, Repr

/-- The aggregation loop over `asyncio.gather(*tasks,
return_exceptions=True)` (agent_manager.py, lines 316–333): a task result
that is an exception is replaced by a synthesized `error` submission for the
agent id at the same index; an ordinary result is kept. -/
def aggregateSubmissions (competition_id : ℕ) (challenge : ChallengeResponse)
    (agent_ids : List ℕ) (results : List (Except String SubmissionResponse)) :
    List SubmissionResponse :=
  (agent_ids.zip results).map fun p =>
    match p.2 with
    | .error e =>
        { competition_id := competition_id
          agent_id := p.1
          challenge_id := challenge.id
          code := ""
          status := .error
          error_message := some e
          total_tests := challenge.test_cases.length }
    | .ok s => s

/-- Model of `AgentManager.run_competition`, with the per-agent runner tasks already
resolved to their gathered outcomes (`results`, one per agent id, an
exception being an `.error`).  An empty agent list raises `ValueError`;
otherwise the leaderboard and winner are computed from the aggregated
submissions. -/
def runCompetition (competition_id : ℕ) (challenge : ChallengeResponse)
    (agent_ids : List ℕ) (results : List (Except String SubmissionResponse)) :
    Except String CompetitionResults :=
  if agent_ids.isEmpty then .error "No agents provided for competition"
  else
    let valid_submissions := aggregateSubmissions competition_id challenge agent_ids results
    let leaderboard := createLeaderboard valid_submissions
    let winner := leaderboard.head?.map (·.agent_id)
    .ok { competition_id := competition_id
          submissions := valid_submissions
          winner := winner
          leaderboard := leaderboard }

/-! ## Agent loading — `AgentManager.load_agent_from_db` and
`AgentManager._fetch_agent_record` (agent_manager.py 73–133, 466–498) -/

/-- The mock record returned by `_fetch_agent_record` when no database is
configured (agent_manager.py, lines 479–490). -/
def mockAgentRecord (agent_id : ℕ) : AgentRecord :=
  { id := agent_id
    name := "Mock Agent"
    model_provider := "openai"
    model_name := "gpt-4-turbo-preview"
    temperature := 7/10
    max_tokens := 4096
    max_iterations := 3 }

/-- Model of `AgentManager._fetch_agent_record`: with no database it returns the mock
record; with a database configured the stub returns `None`. -/
def fetchAgentRecord (database : Option Unit) (agent_id : ℕ) : Option AgentRecord :=
  match database with
  | none => some (mockAgentRecord agent_id)
  | some _ => none

/-- Model of `AgentManager.load_agent_from_db`, abstracted over the record-fetch
collaborator `fetch` (the method `_fetch_agent_record`, which receives the
database handle of the manager).  A cached id returns immediately; with no
database configured a `ValueError("Database not configured")` is raised
before any fetch; otherwise fetch-and-validate failures are wrapped as
`AgentExecutionError("Failed to load agent: ...")`. -/
def loadAgentFromDb (fetch : Option Unit → ℕ → Option AgentRecord)
    (database : Option Unit) (agent_cache : List ℕ) (agent_id : ℕ) :
    Except String Unit :=
  if agent_id ∈ agent_cache then .ok ()
  else
    match database with
    | none => .error "Database not configured"
    | some db =>
      match fetch (some db) agent_id with
      | none =>
          .error ("Failed to load agent: Agent " ++ toString agent_id ++ " not found in database")
      | some agent_record =>
        if agent_record.is_active = false then
          .error ("Failed to load agent: Agent " ++ toString agent_id ++ " is inactive")
        else .ok ()

/-! ## Competition status interleavings — `AgentManager.run_competition` and
`AgentManager.cancel_competition` (agent_manager.py 245–377, 557–580) -/

/-- Program counter of one `run_competition` task: before it starts, while it
awaits the gathered agent tasks (the only true suspension region), and after
it has finished. -/
inductive RunPC where
  | start
  | dispatched
  | done
deriving DecidableEq, Repr

/-- Shared state touched by `run_competition` and `cancel_competition` for
one competition id: the `status` field of the competition object (`none` before
the object is created), membership in `active_competitions`, and the run
program counter of the run task. -/
structure OrchState where
  status : Option CompetitionStatus
  active : Bool
  pc : RunPC
deriving DecidableEq, Repr

/-- State before `run_competition` is invoked. -/
def initOrchState : OrchState :=
  { status := none, active := false, pc := .start }

/-- The atomic steps: `run_competition` creating the record with
`status = RUNNING` and registering it, then dispatching (lines 282–314);
its success path setting `COMPLETED` and deregistering (lines 341, 375, with
no suspension point between under the stub persistence layer); its exception
path setting `CANCELLED` and deregistering (lines 368, 375); and an
out-of-band `cancel_competition`, which flips an active competition to
`CANCELLED` and deregisters it (lines 567–580) and is a no-op otherwise. -/
inductive OrchStep where
  | runStart
  | runFinishOk
  | runFinishErr
  | cancel
deriving DecidableEq, Repr

/-- Effect of one atomic step on the shared state. -/
def applyStep (s : OrchState) : OrchStep → OrchState
  | .runStart =>
      if s.pc = .start then { status := some .running, active := true, pc := .dispatched } else s
  | .runFinishOk =>
      if s.pc = .dispatched then { status := some .completed, active := false, pc := .done } else s
  | .runFinishErr =>
      if s.pc = .dispatched then { status := some .cancelled, active := false, pc := .done } else s
  | .cancel =>
      if s.active then { s with status := some .cancelled, active := false } else s

/-- Run a whole interleaving. -/
def runTrace (s : OrchState) (trace : List OrchStep) : OrchState :=
  trace.foldl applyStep s

/-- Terminal competition statuses (`completed` and `cancelled`; the enum has
no `failed` member). -/
def isTerminal : CompetitionStatus → Bool
  | .completed => true
  | .cancelled => true
  | _ => false

/-! ## Competition Lifecycle Service — `CompetitionService`
(competition_service.py) -/

/-- The distinct Python exception classes escaping
`CompetitionService.run_competition`. -/
inductive PyErr where
  | attributeError (name : String)
  | serviceError (msg : String)
deriving DecidableEq, Repr

/-- Observable outcome of `CompetitionService.run_competition`: the sequence
of status values written through `_update_competition_status`, and the
returned value or escaping exception. -/
structure ServiceOutcome where
  statusWrites : List CompetitionStatus
  result : Except PyErr CompetitionResults
deriving DecidableEq, Repr

/-- Model of `CompetitionService.run_competition` (competition_service.py 76–175),
abstracted over the status of the fetched competition and the outcome of the
orchestrator call.  Faithful to the source: the already-completed guard raises inside
the `try`, so every exception path reaches a handler whose first action is to
evaluate the attribute `CompetitionStatus.FAILED` — a member the enum does
not define — so the handler itself raises `AttributeError` before any status
write or wrapped `CompetitionServiceError` can happen. -/
def serviceRunCompetition (competitionStatus : CompetitionStatus)
    (orch : Except String CompetitionResults) : ServiceOutcome :=
  if competitionStatus = .completed then
    match competitionStatusAttr "FAILED" with
    | some st =>
        { statusWrites := [st]
          result := .error (.serviceError "Competition failed: already completed") }
    | none => { statusWrites := [], result := .error (.attributeError "FAILED") }
  else
    match orch with
    | .ok results =>
        { statusWrites := [.running, .completed], result := .ok results }
    | .error e =>
      match competitionStatusAttr "FAILED" with
      | some st =>
          { statusWrites := [.running, st]
            result := .error (.serviceError ("Competition execution failed: " ++ e)) }
      | none => { statusWrites := [.running], result := .error (.attributeError "FAILED") }

/-- Model of `uuid.UUID()` called with no arguments, as in
`CompetitionService.create_competition` (competition_service.py, line 264):
the constructor requires one of its arguments and raises `TypeError`. -/
def pyUUIDNoArgs : Except String ℕ :=
  .error "TypeError: one of the hex, bytes, bytes_le, fields, or int arguments must be given"

/-- Model of `CompetitionService.create_competition` (competition_service.py 244–279):
builds a `CompetitionResponse` whose `id` is `UUID()`. -/
def createCompetition (challenge_id : String) (agent_ids : List ℕ) :
    Except String CompetitionResponse := do
  let i ← pyUUIDNoArgs
  return { id := i
           challenge_id := challenge_id
           agent_ids := agent_ids
           status := .pending }

/-! ## Shared sample data for concrete inputs -/

/-- A concrete challenge used in concrete evaluations. -/
def sampleChallenge : ChallengeResponse :=
  { id := "challenge-001"
    title := "Two Sum"
    description := "Return indices of the two numbers adding to target."
    difficulty := "easy"
    test_cases :=
      [ { input := "[2,7,11,15], 9", expected_output := "[0,1]" },
        { input := "[3,2,4], 6", expected_output := "[1,2]" },
        { input := "[3,3], 6", expected_output := "[0,1]" },
        { input := "[1,2], 3", expected_output := "[0,1]" },
        { input := "[0,4,3,0], 0", expected_output := "[0,3]" } ] }

/-! ## Helper lemmas -/

/-- Python `max(0, int(x))` agrees with `max(0, floor(x))`: truncation toward
zero and flooring differ only on negative non-integers, where both are
clamped to `0`. -/
theorem max_zero_pyTrunc (q : ℚ) : max 0 (pyTrunc q) = max 0 ⌊q⌋ := by
  unfold pyTrunc
  split
  · rfl
  · rename_i h
    push_neg at h
    have h1 : (⌈q⌉ : ℤ) ≤ 0 := Int.ceil_le.mpr (by exact_mod_cast h.le)
    have h2 : (⌊q⌋ : ℤ) ≤ 0 := Int.floor_nonpos h.le
    rw [max_eq_left h1, max_eq_left h2]

/-! ## Claim theorems -/

/-- C1. For every agent id, challenge, competition id, timeout and
collaborator behaviour, `execute_agent` totally returns a
`SubmissionResponse` (it is a Lean function into `SubmissionResponse`, with
every collaborator exception an explicit `Except` value), and whenever an
exception occurs during agent resolution, code generation, or evaluation,
the returned submission has status `error`, score `0`, and an error message
containing the exception text; no exception propagates. -/
theorem execute_agent_failure_isolation (agent_id : ℕ) (challenge_id : String)
    (competition_id : ℕ) (challenge : ChallengeResponse) (timeout_seconds : ℕ)
    (o : RunnerOracle) (e : String)
    (h : firstRunnerException o = some e) :
    (executeAgent agent_id challenge_id competition_id challenge timeout_seconds o).status
        = .error ∧
    (executeAgent agent_id challenge_id competition_id challenge timeout_seconds o).score = 0 ∧
    (executeAgent agent_id challenge_id competition_id challenge timeout_seconds o).error_message
        = some ("Execution error: " ++ e) := by
  unfold firstRunnerException at h
  unfold executeAgent
  cases hl : o.load with
  | error e2 =>
    rw [hl] at h
    simp only [Option.some.injEq] at h
    subst h
    simp
  | ok u =>
    rw [hl] at h
    cases hs : o.solve with
    | timeout elapsed => rw [hs] at h; simp at h
    | exn e2 =>
      rw [hs] at h
      simp only [Option.some.injEq] at h
      subst h
      simp
    | ok c elapsed =>
      rw [hs] at h
      cases he : o.evalResult with
      | error e2 =>
        rw [he] at h
        simp only [Option.some.injEq] at h
        subst h
        simp
      | ok tr => rw [he] at h; simp at h

/-- Witness for C1 at a concrete input: a load failure is converted into an
`error` submission. -/
theorem execute_agent_failure_isolation_witness :
    firstRunnerException
        { load := .error "Database not configured", solve := .exn "unreached",
          attempts := 0, evalResult := .error "unreached" } = some "Database not configured" ∧
    (executeAgent 1 "challenge-001" 7 sampleChallenge 300
        { load := .error "Database not configured", solve := .exn "unreached",
          attempts := 0, evalResult := .error "unreached" }).status = .error ∧
    (executeAgent 1 "challenge-001" 7 sampleChallenge 300
        { load := .error "Database not configured", solve := .exn "unreached",
          attempts := 0, evalResult := .error "unreached" }).score = 0 ∧
    (executeAgent 1 "challenge-001" 7 sampleChallenge 300
        { load := .error "Database not configured", solve := .exn "unreached",
          attempts := 0, evalResult := .error "unreached" }).error_message
      = some ("Execution error: " ++ "Database not configured") :=
  ⟨by decide,
   execute_agent_failure_isolation 1 "challenge-001" 7 sampleChallenge 300
     { load := .error "Database not configured", solve := .exn "unreached",
       attempts := 0, evalResult := .error "unreached" } "Database not configured" (by decide)⟩

/-- C3. For every all-tests-passed result, `_calculate_score` returns
`max(0, floor((100 + max(0, 50 - execution_time/60*50) - (attempts-1)*10) * m))`
with `m` equal to 1 for easy, 3/2 for medium, 2 for hard (matched
case-insensitively) and 1 for unknown difficulty. -/
theorem calculate_score_passed_formula (tr : TestResult) (t : ℚ) (a : ℕ)
    (d : String) (hp : tr.passed = true) :
    calculateScore tr t a d =
      .ok (max 0 ⌊(100 + max 0 (50 - t / 60 * 50) - ((a : ℚ) - 1) * 10) *
        (if pyLower d = "easy" then (1 : ℚ)
         else if pyLower d = "medium" then 3/2
         else if pyLower d = "hard" then 2
         else 1)⌋) := by
  simp only [calculateScore, hp, Bool.true_eq_false, if_false, pyDiv,
    difficultyMultiplier]
  rw [if_neg (by norm_num : ¬(60 : ℚ) = 0)]
  simp only [max_zero_pyTrunc]
  rfl

/-- Witness for C3: the spec scenario — all 3 tests pass, 30 seconds,
1 attempt, difficulty medium — scores 187. -/
theorem calculate_score_passed_formula_witness :
    calculateScore { passed := true, total_tests := 3, passed_tests := 3 } 30 1 "medium"
      = .ok 187 := by
  have h := calculate_score_passed_formula
    { passed := true, total_tests := 3, passed_tests := 3 } 30 1 "medium" rfl
  rw [h]
  rw [show pyLower "medium" = "medium" from by decide]
  rw [if_neg (by decide : ¬("medium" : String) = "easy"),
    if_pos (rfl : ("medium" : String) = "medium")]
  have harg : (100 + max 0 (50 - (30 : ℚ) / 60 * 50) - (((1 : ℕ) : ℚ) - 1) * 10) * (3 / 2)
      = 375 / 2 := by
    push_cast
    norm_num [max_def]
  rw [harg]
  have hf : (⌊(375 : ℚ) / 2⌋ : ℤ) = 187 := by
    rw [Int.floor_eq_iff]
    norm_num
  rw [hf]
  norm_num

/-- C4 counterexample. The claim predicts partial credit
`floor(2/5 * 30) = 12` for a `failed` submission passing 2 of 5 tests; the
runner records score `0` there (`agent_manager.py`, line 216): the
partial-credit branch of `_calculate_score` is never invoked for a failed
submission. -/
theorem failed_submission_partial_credit_counterexample :
    (executeAgent 1 "challenge-001" 7 sampleChallenge 300
        { load := .ok (), solve := .ok "def add(a, b): return a + b" 10, attempts := 1,
          evalResult := .ok { passed := false, total_tests := 5, passed_tests := 2 } }).status
      = .failed ∧
    (executeAgent 1 "challenge-001" 7 sampleChallenge 300
        { load := .ok (), solve := .ok "def add(a, b): return a + b" 10, attempts := 1,
          evalResult := .ok { passed := false, total_tests := 5, passed_tests := 2 } }).tests_passed
      = 2 ∧
    (executeAgent 1 "challenge-001" 7 sampleChallenge 300
        { load := .ok (), solve := .ok "def add(a, b): return a + b" 10, attempts := 1,
          evalResult := .ok { passed := false, total_tests := 5, passed_tests := 2 } }).total_tests
      = 5 ∧
    (executeAgent 1 "challenge-001" 7 sampleChallenge 300
        { load := .ok (), solve := .ok "def add(a, b): return a + b" 10, attempts := 1,
          evalResult := .ok { passed := false, total_tests := 5, passed_tests := 2 } }).score
      = 0 ∧
    pyTrunc ((2 : ℚ) / 5 * 30) = 12 ∧
    (0 : ℤ) ≠ 12 := by
  refine ⟨rfl, rfl, rfl, rfl, ?_, by decide⟩
  have h : ((2 : ℚ) / 5 * 30) = 12 := by norm_num
  rw [pyTrunc, h, if_pos (by norm_num)]
  norm_num

/-- C4 amended. A submission whose evaluator ran but which did not pass
all tests is recorded with status `failed` and score `0` (with
`error_message` the evaluator message, defaulting to "Tests failed");
the partial-credit branch of `_calculate_score` would compute
`int((tests_passed / total_tests) * 30)` but `execute_agent` never calls the
scorer on a non-passing result. -/
theorem failed_submission_records_zero (agent_id : ℕ) (challenge_id : String)
    (competition_id : ℕ) (challenge : ChallengeResponse) (timeout_seconds : ℕ)
    (o : RunnerOracle) (c : String) (el : ℚ) (tr : TestResult)
    (hl : o.load = .ok ()) (hs : o.solve = .ok c el) (he : o.evalResult = .ok tr)
    (hp : tr.passed = false) :
    ((executeAgent agent_id challenge_id competition_id challenge timeout_seconds o).status
        = .failed ∧
     (executeAgent agent_id challenge_id competition_id challenge timeout_seconds o).score = 0 ∧
     (executeAgent agent_id challenge_id competition_id challenge timeout_seconds o).error_message
        = some (pyOrStr tr.error_message "Tests failed")) ∧
    (tr.total_tests ≠ 0 →
      calculateScore tr el o.attempts challenge.difficulty
        = .ok (pyTrunc ((tr.passed_tests : ℚ) / (tr.total_tests : ℚ) * 30))) := by
  constructor
  · unfold executeAgent
    rw [hl, hs, he]
    simp [hp]
  · intro h0
    have hz : ((tr.total_tests : ℚ)) ≠ 0 := by
      exact_mod_cast h0
    simp [calculateScore, pyDiv, hp, hz]

/-- Witness for C4 amended: 2 of 5 tests pass; the submission records score
0 while the dead scorer branch would give 12. -/
theorem failed_submission_records_zero_witness :
    ((executeAgent 1 "challenge-001" 7 sampleChallenge 300
        { load := .ok (), solve := .ok "code" 10, attempts := 1,
          evalResult := .ok { passed := false, total_tests := 5, passed_tests := 2 } }).status
        = .failed ∧
     (executeAgent 1 "challenge-001" 7 sampleChallenge 300
        { load := .ok (), solve := .ok "code" 10, attempts := 1,
          evalResult := .ok { passed := false, total_tests := 5, passed_tests := 2 } }).score
        = 0 ∧
     (executeAgent 1 "challenge-001" 7 sampleChallenge 300
        { load := .ok (), solve := .ok "code" 10, attempts := 1,
          evalResult := .ok { passed := false, total_tests := 5, passed_tests := 2 } }).error_message
        = some (pyOrStr none "Tests failed")) ∧
    ((5 : ℕ) ≠ 0 →
      calculateScore { passed := false, total_tests := 5, passed_tests := 2 } 10 1
          sampleChallenge.difficulty
        = .ok (pyTrunc ((2 : ℚ) / 5 * 30))) :=
  failed_submission_records_zero 1 "challenge-001" 7 sampleChallenge 300
    { load := .ok (), solve := .ok "code" 10, attempts := 1,
      evalResult := .ok { passed := false, total_tests := 5, passed_tests := 2 } }
    "code" 10 { passed := false, total_tests := 5, passed_tests := 2 } rfl rfl rfl rfl

/-- C5 counterexample. `_calculate_score` on a non-passing result with
`total_tests = 0` raises `ZeroDivisionError` rather than returning 0: the
division `tests_passed / total_tests` is not guarded. -/
theorem calculate_score_zero_tests_counterexample :
    calculateScore { passed := false, total_tests := 0, passed_tests := 0 } 0 1 "easy"
      = .error "ZeroDivisionError" ∧
    calculateScore { passed := false, total_tests := 0, passed_tests := 0 } 0 1 "easy"
      ≠ .ok 0 := by
  decide

/-- C5 amended. For every non-passing result with `total_tests = 0`,
`_calculate_score` raises `ZeroDivisionError`: the division
`tests_passed / total_tests` has no zero guard (the runner avoids this only
because it calls the scorer exclusively on all-passed results). -/
theorem calculate_score_zero_tests_raises (tr : TestResult) (t : ℚ) (a : ℕ)
    (d : String) (hp : tr.passed = false) (h0 : tr.total_tests = 0) :
    calculateScore tr t a d = .error "ZeroDivisionError" := by
  simp [calculateScore, pyDiv, hp, h0]

/-- Witness for C5 amended at a concrete input. -/
theorem calculate_score_zero_tests_raises_witness :
    calculateScore { passed := false, total_tests := 0, passed_tests := 0 } 5 2 "hard"
      = .error "ZeroDivisionError" :=
  calculate_score_zero_tests_raises
    { passed := false, total_tests := 0, passed_tests := 0 } 5 2 "hard" rfl rfl

/-! ## Leaderboard lemmas -/

/-- The leaderboard comparison is transitive. -/
theorem leaderboardLE_trans (a b c : LeaderboardEntry)
    (hab : leaderboardLE a b) (hbc : leaderboardLE b c) : leaderboardLE a c := by
  simp only [leaderboardLE, Bool.or_eq_true, Bool.and_eq_true, decide_eq_true_eq] at hab hbc ⊢
  rcases hab with h1 | ⟨h1, h2⟩
  · rcases hbc with h3 | ⟨h3, h4⟩
    · exact Or.inl (h1.trans h3)
    · exact Or.inl (h3 ▸ h1)
  · rcases hbc with h3 | ⟨h3, h4⟩
    · exact Or.inl (h1 ▸ h3)
    · exact Or.inr ⟨h1.trans h3, h2.trans h4⟩

/-- The leaderboard comparison is total. -/
theorem leaderboardLE_total (a b : LeaderboardEntry) :
    leaderboardLE a b || leaderboardLE b a := by
  simp only [leaderboardLE, Bool.or_eq_true, Bool.and_eq_true, decide_eq_true_eq]
  rcases lt_trichotomy (-a.score) (-b.score) with h | h | h
  · exact Or.inl (Or.inl h)
  · rcases le_total (pyOrInf a.execution_time) (pyOrInf b.execution_time) with h2 | h2
    · exact Or.inl (Or.inr ⟨h, h2⟩)
    · exact Or.inr (Or.inr ⟨h.symm, h2⟩)
  · exact Or.inr (Or.inl h)

/-- What the leaderboard comparison means for scores and time keys. -/
theorem leaderboardLE_spec (a b : LeaderboardEntry) (h : leaderboardLE a b) :
    b.score ≤ a.score ∧
      (a.score = b.score → pyOrInf a.execution_time ≤ pyOrInf b.execution_time) := by
  simp only [leaderboardLE, Bool.or_eq_true, Bool.and_eq_true, decide_eq_true_eq] at h
  rcases h with h | ⟨h1, h2⟩
  · refine ⟨by omega, fun he => absurd he (by omega)⟩
  · exact ⟨by omega, fun _ => h2⟩

/-- Assigning ranks by enumeration does not change the agent id of any entry. -/
theorem map_agent_id_rank_enumFrom (n : ℕ) (l : List LeaderboardEntry) :
    ((l.enumFrom n).map fun p => { p.2 with rank := p.1 + 1 }).map (·.agent_id)
      = l.map (·.agent_id) := by
  induction l generalizing n with
  | nil => simp
  | cons a l ih => simp [List.enumFrom, ih]

/-- The leaderboard lists exactly the agent ids of the submissions, up to order. -/
theorem createLeaderboard_agent_ids_perm (submissions : List SubmissionResponse) :
    ((createLeaderboard submissions).map (·.agent_id)).Perm
      (submissions.map (·.agent_id)) := by
  unfold createLeaderboard
  rw [List.enum, map_agent_id_rank_enumFrom]
  have h2 := (List.mergeSort_perm (submissions.map submissionEntry) leaderboardLE).map
    (·.agent_id)
  refine h2.trans (List.Perm.of_eq ?_)
  simp [List.map_map, submissionEntry, Function.comp]

/-- Entry `i` of the leaderboard is entry `i` of the stable-sorted entry
list, with rank `i + 1`. -/
theorem createLeaderboard_get (submissions : List SubmissionResponse) (i : ℕ)
    (hi : i < (createLeaderboard submissions).length)
    (hs : i < ((submissions.map submissionEntry).mergeSort leaderboardLE).length) :
    (createLeaderboard submissions).get ⟨i, hi⟩ =
      { ((submissions.map submissionEntry).mergeSort leaderboardLE).get ⟨i, hs⟩ with
        rank := i + 1 } := by
  simp [createLeaderboard, List.get_eq_getElem, List.getElem_map, List.getElem_enum]

/-- Concrete submissions for the leaderboard counterexample: equal scores,
one with a recorded execution time of `0.0` and one with `5.0`. -/
def zeroTimeSubmission : SubmissionResponse :=
  { competition_id := 9
    agent_id := 1
    challenge_id := "challenge-001"
    code := "def f(): return 0"
    status := .passed
    score := 10
    tests_passed := 5
    total_tests := 5
    execution_time := some 0
    attempts := 1 }

/-- Companion submission with the same score and execution time `5.0`. -/
def fiveTimeSubmission : SubmissionResponse :=
  { competition_id := 9
    agent_id := 2
    challenge_id := "challenge-001"
    code := "def f(): return 5"
    status := .passed
    score := 10
    tests_passed := 5
    total_tests := 5
    execution_time := some 5
    attempts := 1 }

/-- C6 counterexample. With two equal-score submissions whose recorded
execution times are `0.0` and `5.0`, `_create_leaderboard` places the
`5.0` entry first: `x["execution_time"] or float(inf)` treats the falsy
value `0.0` like a missing time, so adjacent equal-score entries are NOT in
ascending execution-time order (`5 ≤ 0` is false). -/
theorem leaderboard_sort_key_counterexample :
    ((createLeaderboard [zeroTimeSubmission, fiveTimeSubmission]).map
        fun e => (e.rank, e.agent_id, e.score, e.execution_time))
      = [(1, 2, 10, some 5), (2, 1, 10, some 0)] ∧
    ¬((5 : ℚ) ≤ (0 : ℚ)) := by
  constructor
  · simp [createLeaderboard, submissionEntry, zeroTimeSubmission, fiveTimeSubmission,
      List.mergeSort, List.splitInTwo, List.merge, leaderboardLE, pyOrInf,
      List.enum, List.enumFrom]
  · norm_num

/-- C6 amended. For every list of submissions, the leaderboard built by
`_create_leaderboard` has one entry per submission and is sorted by score
descending and, among equal scores, ascending in the sort key that maps an
execution time that is missing OR equal to `0.0` to `+∞` (Python
`x["execution_time"] or float(inf)` treats `0.0` as falsy); ranks are
assigned strictly sequentially `1..N` in sorted order; and the sort is
stable, so entries already in key order keep their insertion order. -/
theorem leaderboard_sorted_and_ranked (submissions : List SubmissionResponse) :
    (createLeaderboard submissions).length = submissions.length ∧
    (∀ i : ℕ, ∀ hi : i + 1 < (createLeaderboard submissions).length,
      ((createLeaderboard submissions).get ⟨i + 1, hi⟩).score
          ≤ ((createLeaderboard submissions).get ⟨i, Nat.lt_of_succ_lt hi⟩).score ∧
      (((createLeaderboard submissions).get ⟨i, Nat.lt_of_succ_lt hi⟩).score
          = ((createLeaderboard submissions).get ⟨i + 1, hi⟩).score →
        pyOrInf ((createLeaderboard submissions).get ⟨i, Nat.lt_of_succ_lt hi⟩).execution_time
          ≤ pyOrInf ((createLeaderboard submissions).get ⟨i + 1, hi⟩).execution_time)) ∧
    (∀ i : ℕ, ∀ hi : i < (createLeaderboard submissions).length,
      ((createLeaderboard submissions).get ⟨i, hi⟩).rank = i + 1) ∧
    (∀ a b : LeaderboardEntry, leaderboardLE a b →
      [a, b].Sublist (submissions.map submissionEntry) →
      [a, b].Sublist ((submissions.map submissionEntry).mergeSort leaderboardLE)) := by
  have hlen : (createLeaderboard submissions).length = submissions.length := by
    simp [createLeaderboard]
  have hslen : ((submissions.map submissionEntry).mergeSort leaderboardLE).length
      = submissions.length := by
    simp
  have hpw := List.sorted_mergeSort leaderboardLE_trans leaderboardLE_total
    (submissions.map submissionEntry)
  refine ⟨hlen, ?_, ?_, ?_⟩
  · intro i hi
    have hi1 : i < ((submissions.map submissionEntry).mergeSort leaderboardLE).length := by
      omega
    have hi2 : i + 1 < ((submissions.map submissionEntry).mergeSort leaderboardLE).length := by
      omega
    have hrel := List.pairwise_iff_getElem.mp hpw i (i + 1) hi1 hi2 (Nat.lt_succ_self i)
    have hspec := leaderboardLE_spec _ _ hrel
    rw [createLeaderboard_get submissions i (Nat.lt_of_succ_lt hi) hi1,
      createLeaderboard_get submissions (i + 1) hi hi2]
    simpa [List.get_eq_getElem] using hspec
  · intro i hi
    have hi1 : i < ((submissions.map submissionEntry).mergeSort leaderboardLE).length := by
      omega
    rw [createLeaderboard_get submissions i hi hi1]
  · intro a b hab hsub
    exact List.pair_sublist_mergeSort leaderboardLE_trans leaderboardLE_total hab hsub

/-- Witness for C6 amended: the leaderboard of the two concrete equal-score
submissions, with the adjacent-order property instantiated at index 0 and
the rank property at index 0. -/
theorem leaderboard_sorted_and_ranked_witness :
    (createLeaderboard [zeroTimeSubmission, fiveTimeSubmission]).length = 2 ∧
    ((createLeaderboard [zeroTimeSubmission, fiveTimeSubmission]).get
        ⟨1, by simp [createLeaderboard]⟩).score
      ≤ ((createLeaderboard [zeroTimeSubmission, fiveTimeSubmission]).get
        ⟨0, by simp [createLeaderboard]⟩).score ∧
    ((createLeaderboard [zeroTimeSubmission, fiveTimeSubmission]).get
        ⟨0, by simp [createLeaderboard]⟩).rank = 1 := by
  have h := leaderboard_sorted_and_ranked [zeroTimeSubmission, fiveTimeSubmission]
  refine ⟨by simpa using h.1, ?_, ?_⟩
  · exact (h.2.1 0 (by simp [createLeaderboard])).1
  · exact h.2.2.1 0 (by simp [createLeaderboard])

/-! ## Orchestrator aggregation lemmas -/

/-- Aggregation keeps exactly the requested agent ids, in dispatch order:
a synthesized error submission carries the agent id at its index, and an
ordinary runner result carries its own (matching) agent id. -/
theorem aggregate_agent_ids (cid : ℕ) (ch : ChallengeResponse)
    {agent_ids : List ℕ} {results : List (Except String SubmissionResponse)}
    (hmatch : List.Forall₂ (fun aid r => ∀ s, r = Except.ok s → s.agent_id = aid)
      agent_ids results) :
    (aggregateSubmissions cid ch agent_ids results).map (·.agent_id) = agent_ids := by
  induction hmatch with
  | nil => simp [aggregateSubmissions]
  | cons h hrest ih =>
    rename_i a r as rs
    simp only [aggregateSubmissions, List.zip_cons_cons, List.map_cons] at ih ⊢
    refine congrArg₂ List.cons ?_ ih
    cases r with
    | error e => rfl
    | ok s => exact h s rfl

/-- Every runner task that raised is replaced by a synthesized submission
with status `error`, score 0 and the exception text as message. -/
theorem aggregate_error_forall (cid : ℕ) (ch : ChallengeResponse) :
    ∀ (agent_ids : List ℕ) (results : List (Except String SubmissionResponse)),
      results.length = agent_ids.length →
      List.Forall₂ (fun r s => ∀ e, r = Except.error e →
          s.status = .error ∧ s.score = 0 ∧ s.error_message = some e)
        results (aggregateSubmissions cid ch agent_ids results)
  | [], [], _ => by simp [aggregateSubmissions]
  | [], _ :: _, h => by simp at h
  | _ :: _, [], h => by simp at h
  | a :: as, r :: rs, h => by
    simp only [aggregateSubmissions, List.zip_cons_cons, List.map_cons]
    refine List.Forall₂.cons ?_ ?_
    · cases r with
      | error e2 =>
        intro e he
        injection he with h2
        subst h2
        exact ⟨rfl, rfl, rfl⟩
      | ok s =>
        intro e he
        simp at he
    · have hlen : rs.length = as.length := by simpa using h
      simpa [aggregateSubmissions] using aggregate_error_forall cid ch as rs hlen

/-- Aggregating task results that all returned normally just collects the
returned submissions, in dispatch order. -/
theorem aggregate_map_ok (cid : ℕ) (ch : ChallengeResponse) (g : ℕ → SubmissionResponse) :
    ∀ l : List ℕ,
      aggregateSubmissions cid ch l (l.map fun a => Except.ok (g a)) = l.map g
  | [] => by simp [aggregateSubmissions]
  | a :: as => by
    simp only [List.map_cons, aggregateSubmissions, List.zip_cons_cons]
    exact congrArg₂ List.cons rfl (aggregate_map_ok cid ch g as)

/-- C2. For a competition dispatched over a non-empty list of N agent
ids, where each runner task either returns a submission carrying its own
agent id or raises, `run_competition` returns results whose leaderboard has
exactly N entries — one per requested agent id, up to the sort — with the
submissions listing the requested ids in order, and every raising task
replaced by a synthesized `error` submission (score 0, message the
exception text) rather than dropped. -/
theorem run_competition_leaderboard_complete (competition_id : ℕ)
    (challenge : ChallengeResponse) (agent_ids : List ℕ)
    (results : List (Except String SubmissionResponse))
    (hne : agent_ids ≠ [])
    (hmatch : List.Forall₂ (fun aid r => ∀ s, r = Except.ok s → s.agent_id = aid)
      agent_ids results) :
    ∃ res, runCompetition competition_id challenge agent_ids results = .ok res ∧
      res.leaderboard.length = agent_ids.length ∧
      (res.leaderboard.map (·.agent_id)).Perm agent_ids ∧
      res.submissions.map (·.agent_id) = agent_ids ∧
      List.Forall₂ (fun r s => ∀ e, r = Except.error e →
          s.status = .error ∧ s.score = 0 ∧ s.error_message = some e)
        results res.submissions := by
  have hids := aggregate_agent_ids competition_id challenge hmatch
  have hsublen :
      (aggregateSubmissions competition_id challenge agent_ids results).length
        = agent_ids.length := by
    have := congrArg List.length hids
    simpa using this
  have hlblen :
      (createLeaderboard (aggregateSubmissions competition_id challenge agent_ids results)).length
        = agent_ids.length := by
    simp [createLeaderboard, hsublen]
  have hrun : runCompetition competition_id challenge agent_ids results =
      .ok { competition_id := competition_id,
            submissions := aggregateSubmissions competition_id challenge agent_ids results,
            winner :=
              (createLeaderboard
                (aggregateSubmissions competition_id challenge agent_ids results)).head?.map
                  (·.agent_id),
            leaderboard :=
              createLeaderboard
                (aggregateSubmissions competition_id challenge agent_ids results) } := by
    unfold runCompetition
    rw [if_neg (by simpa [List.isEmpty_iff] using hne)]
  exact ⟨_, hrun, hlblen,
    (createLeaderboard_agent_ids_perm _).trans (List.Perm.of_eq hids), hids,
    aggregate_error_forall competition_id challenge agent_ids results
      (by simpa using hmatch.length_eq.symm)⟩

/-- A concrete passed submission for agent 1, used by the C2 witness. -/
def demoOkSubmission : SubmissionResponse :=
  { competition_id := 9
    agent_id := 1
    challenge_id := "challenge-001"
    code := "def add(a, b): return a + b"
    status := .passed
    score := 100
    tests_passed := 5
    total_tests := 5
    execution_time := some 2
    attempts := 1 }

/-- Witness for C2: two agents, one runner task raising; the leaderboard has
two entries and the raising task becomes an `error` submission. -/
theorem run_competition_leaderboard_complete_witness :
    ∃ res, runCompetition 9 sampleChallenge [1, 2]
        [.ok demoOkSubmission, .error "RuntimeError: boom"] = .ok res ∧
      res.leaderboard.length = 2 ∧
      (res.leaderboard.map (·.agent_id)).Perm [1, 2] ∧
      res.submissions.map (·.agent_id) = [1, 2] ∧
      List.Forall₂ (fun r s => ∀ e, r = Except.error e →
          s.status = .error ∧ s.score = 0 ∧ s.error_message = some e)
        [.ok demoOkSubmission, .error "RuntimeError: boom"] res.submissions := by
  have h := run_competition_leaderboard_complete 9 sampleChallenge [1, 2]
    [.ok demoOkSubmission, .error "RuntimeError: boom"]
    (by simp)
    (by
      refine List.Forall₂.cons ?_ (List.Forall₂.cons ?_ List.Forall₂.nil)
      · intro s hs
        injection hs with h2
        rw [← h2]
        rfl
      · intro s hs
        simp at hs)
  simpa using h

/-! ## Status state-machine lemmas -/

/-- Reachability invariant of the shared status state: a `completed` status
implies the run task has finished and the competition is deregistered, and a
finished run task implies deregistration. -/
def OrchInv (s : OrchState) : Prop :=
  (s.status = some .completed → s.pc = .done ∧ s.active = false) ∧
  (s.pc = .done → s.active = false)

/-- The invariant is preserved by every atomic step. -/
theorem orchInv_step (s : OrchState) (st : OrchStep) (h : OrchInv s) :
    OrchInv (applyStep s st) := by
  obtain ⟨h1, h2⟩ := h
  cases st <;> simp only [applyStep] <;> split <;>
    first
    | exact ⟨h1, h2⟩
    | constructor <;> intro hx <;> simp_all [OrchInv]

/-- The invariant is preserved along every trace. -/
theorem orchInv_runTrace (s : OrchState) (trace : List OrchStep) (h : OrchInv s) :
    OrchInv (runTrace s trace) := by
  induction trace generalizing s with
  | nil => exact h
  | cons st rest ih => exact ih (applyStep s st) (orchInv_step s st h)

/-- After the run task has finished and the competition is deregistered,
every atomic step is a no-op. -/
theorem applyStep_frozen (s : OrchState) (st : OrchStep)
    (hpc : s.pc = .done) (hact : s.active = false) : applyStep s st = s := by
  cases st <;> simp [applyStep, hpc, hact]

/-- After the run task has finished and the competition is deregistered,
every trace is a no-op. -/
theorem runTrace_frozen (s : OrchState) (trace : List OrchStep)
    (hpc : s.pc = .done) (hact : s.active = false) : runTrace s trace = s := by
  induction trace with
  | nil => rfl
  | cons st rest ih =>
    show runTrace (applyStep s st) rest = s
    rw [applyStep_frozen s st hpc hact]
    exact ih

/-- C7 counterexample. The interleaving `runStart; cancel; runFinishOk`
(cancel arrives while `run_competition` awaits the gathered agent tasks)
drives the status to the terminal `cancelled` and then re-assigns it to
`completed`: a terminal status is overwritten, refuting monotonicity. -/
theorem competition_status_regression_counterexample :
    (runTrace initOrchState [.runStart, .cancel]).status = some .cancelled ∧
    isTerminal .cancelled = true ∧
    (runTrace initOrchState [.runStart, .cancel, .runFinishOk]).status = some .completed ∧
    CompetitionStatus.completed ≠ .cancelled := by
  decide

/-- C7 amended. Along every interleaving of `run_competition` and
`cancel_competition` from the initial state: once the status is `completed`
it is never assigned a different value, and once the run task has finished
the whole shared state is frozen; however a `cancelled` status set by
`cancel_competition` while the run is still in flight is later overwritten
by the completion step of the orchestrator, so monotonicity holds only for
terminal statuses assigned by the run task itself. -/
theorem competition_completed_stable (tr tr2 : List OrchStep) :
    ((runTrace initOrchState tr).status = some .completed →
      (runTrace (runTrace initOrchState tr) tr2).status = some .completed) ∧
    ((runTrace initOrchState tr).pc = .done →
      runTrace (runTrace initOrchState tr) tr2 = runTrace initOrchState tr) := by
  have hinv : OrchInv (runTrace initOrchState tr) := by
    refine orchInv_runTrace initOrchState tr ⟨?_, ?_⟩ <;> intro h <;>
      simp [initOrchState] at h
  constructor
  · intro hc
    obtain ⟨hpc, hact⟩ := hinv.1 hc
    rw [runTrace_frozen _ tr2 hpc hact]
    exact hc
  · intro hpc
    exact runTrace_frozen _ tr2 hpc (hinv.2 hpc)

/-- Witness for C7 amended: a completed run stays `completed` across a
subsequent cancel request. -/
theorem competition_completed_stable_witness :
    (runTrace (runTrace initOrchState [.runStart, .runFinishOk]) [.cancel]).status
      = some .completed ∧
    runTrace (runTrace initOrchState [.runStart, .runFinishOk]) [.cancel]
      = runTrace initOrchState [.runStart, .runFinishOk] := by
  have h := competition_completed_stable [.runStart, .runFinishOk] [.cancel]
  exact ⟨h.1 (by decide), h.2 (by decide)⟩

/-- C8. When the orchestrator raises, the exception handler of the service
evaluates `CompetitionStatus.FAILED`; `models.CompetitionStatus` has no
`FAILED` member, so the handler itself raises `AttributeError`: no `failed`
status is written (only the earlier `running` write happened) and no
wrapped `CompetitionServiceError` reaches the caller.  Concrete failing
run: with no database the mock competition has an empty agent list, so the
orchestrator raises `ValueError("No agents provided for competition")`. -/
theorem service_failed_status_attribute_error :
    serviceRunCompetition .pending (.error "No agents provided for competition")
      = { statusWrites := [.running], result := .error (.attributeError "FAILED") } ∧
    competitionStatusAttr "FAILED" = none := by
  exact ⟨rfl, rfl⟩

/-- C9. `create_competition` never returns: it computes `id=UUID()`, and
`uuid.UUID()` with no arguments unconditionally raises `TypeError`, so no
pending Competition is ever built (the scenario of the enclosing claim —
challenge `challenge-001` with two agents — is shown; the argument values
are never consulted). -/
theorem create_competition_type_error :
    createCompetition "challenge-001" [1, 2]
      = .error
          "TypeError: one of the hex, bytes, bytes_le, fields, or int arguments must be given" := by
  rfl

/-- C10. With no database configured and an uncached agent id,
`load_agent_from_db` raises `ValueError("Database not configured")` before
`_fetch_agent_record` can run — the result does not depend on the fetch
collaborator at all, so its mock-record fallback is unreachable from this
path.  Consequently every submission produced by `execute_agent` in such a
run has status `error` and score 0 (never `passed`, `failed`, or
`timeout`), and in a whole competition run with a fresh (empty) cache every
submission aggregated by `run_competition` has status `error` and score
0. -/
theorem no_database_all_error (fetch : Option Unit → ℕ → Option AgentRecord)
    (agent_cache : List ℕ) (agent_id : ℕ) (hc : agent_id ∉ agent_cache) :
    loadAgentFromDb fetch none agent_cache agent_id = .error "Database not configured" ∧
    (∀ fetch2 : Option Unit → ℕ → Option AgentRecord,
      loadAgentFromDb fetch none agent_cache agent_id
        = loadAgentFromDb fetch2 none agent_cache agent_id) ∧
    (∀ (challenge_id : String) (competition_id : ℕ) (challenge : ChallengeResponse)
        (timeout_seconds : ℕ) (solve : SolveOutcome) (attempts : ℕ)
        (evalResult : Except String TestResult),
      (executeAgent agent_id challenge_id competition_id challenge timeout_seconds
          { load := loadAgentFromDb fetch none agent_cache agent_id,
            solve := solve, attempts := attempts, evalResult := evalResult }).status
          = .error ∧
      (executeAgent agent_id challenge_id competition_id challenge timeout_seconds
          { load := loadAgentFromDb fetch none agent_cache agent_id,
            solve := solve, attempts := attempts, evalResult := evalResult }).score = 0 ∧
      (executeAgent agent_id challenge_id competition_id challenge timeout_seconds
          { load := loadAgentFromDb fetch none agent_cache agent_id,
            solve := solve, attempts := attempts, evalResult := evalResult }).error_message
          = some "Execution error: Database not configured" ∧
      (executeAgent agent_id challenge_id competition_id challenge timeout_seconds
          { load := loadAgentFromDb fetch none agent_cache agent_id,
            solve := solve, attempts := attempts, evalResult := evalResult }).status
          ≠ .passed ∧
      (executeAgent agent_id challenge_id competition_id challenge timeout_seconds
          { load := loadAgentFromDb fetch none agent_cache agent_id,
            solve := solve, attempts := attempts, evalResult := evalResult }).status
          ≠ .failed ∧
      (executeAgent agent_id challenge_id competition_id challenge timeout_seconds
          { load := loadAgentFromDb fetch none agent_cache agent_id,
            solve := solve, attempts := attempts, evalResult := evalResult }).status
          ≠ .timeout) ∧
    (∀ (competition_id : ℕ) (challenge : ChallengeResponse) (timeout_seconds : ℕ)
        (agent_ids : List ℕ) (solveF : ℕ → SolveOutcome) (attemptsF : ℕ → ℕ)
        (evalF : ℕ → Except String TestResult) (res : CompetitionResults),
      runCompetition competition_id challenge agent_ids
          (agent_ids.map fun aid =>
            .ok (executeAgent aid challenge.id competition_id challenge timeout_seconds
              { load := loadAgentFromDb fetch none [] aid, solve := solveF aid,
                attempts := attemptsF aid, evalResult := evalF aid })) = .ok res →
      ∀ s ∈ res.submissions, s.status = .error ∧ s.score = 0) := by
  have hload : loadAgentFromDb fetch none agent_cache agent_id
      = .error "Database not configured" := by
    simp [loadAgentFromDb, hc]
  have hgen : ∀ (f : Option Unit → ℕ → Option AgentRecord) (aid : ℕ),
      loadAgentFromDb f none [] aid = .error "Database not configured" := by
    intro f aid
    simp [loadAgentFromDb]
  refine ⟨hload, ?_, ?_, ?_⟩
  · intro fetch2
    rw [hload]
    simp [loadAgentFromDb, hc]
  · intro challenge_id competition_id challenge timeout_seconds solve attempts evalResult
    refine ⟨?_, ?_, ?_, ?_, ?_, ?_⟩ <;> simp [executeAgent, hload]
  · intro competition_id challenge timeout_seconds agent_ids solveF attemptsF evalF res hres
    have hexec : ∀ aid : ℕ,
        (executeAgent aid challenge.id competition_id challenge timeout_seconds
          { load := loadAgentFromDb fetch none [] aid, solve := solveF aid,
            attempts := attemptsF aid, evalResult := evalF aid }).status = .error ∧
        (executeAgent aid challenge.id competition_id challenge timeout_seconds
          { load := loadAgentFromDb fetch none [] aid, solve := solveF aid,
            attempts := attemptsF aid, evalResult := evalF aid }).score = 0 := by
      intro aid
      constructor <;> simp [executeAgent, hgen fetch aid]
    unfold runCompetition at hres
    by_cases hemp : agent_ids.isEmpty
    · rw [if_pos hemp] at hres
      simp at hres
    · rw [if_neg hemp] at hres
      simp only [Except.ok.injEq] at hres
      subst hres
      intro s hs
      rw [aggregate_map_ok] at hs
      obtain ⟨aid, _, rfl⟩ := List.mem_map.mp hs
      exact hexec aid

/-- Witness for C10 at a concrete input: agent 42, empty cache, the real
`_fetch_agent_record` stub as fetch collaborator. -/
theorem no_database_all_error_witness :
    loadAgentFromDb fetchAgentRecord none [] 42 = .error "Database not configured" ∧
    (executeAgent 42 "challenge-001" 9 sampleChallenge 300
        { load := loadAgentFromDb fetchAgentRecord none [] 42,
          solve := .ok "def add(a, b): return a + b" 1, attempts := 1,
          evalResult := .ok { passed := true, total_tests := 5, passed_tests := 5 } }).status
      = .error ∧
    (executeAgent 42 "challenge-001" 9 sampleChallenge 300
        { load := loadAgentFromDb fetchAgentRecord none [] 42,
          solve := .ok "def add(a, b): return a + b" 1, attempts := 1,
          evalResult := .ok { passed := true, total_tests := 5, passed_tests := 5 } }).score
      = 0 := by
  have h := no_database_all_error fetchAgentRecord [] 42 (by simp)
  have h3 := h.2.2.1 "challenge-001" 9 sampleChallenge 300
    (.ok "def add(a, b): return a + b" 1) 1
    (.ok { passed := true, total_tests := 5, passed_tests := 5 })
  exact ⟨h.1, h3.1, h3.2.1⟩

end DevForkArena
